import Mathlib

/-!
Verification of the cognibot backend's structured-extraction core
(`src/backend/app.py`): the quiz extractor and schedule extractor
(line-oriented state machines over generated text), the schedule
fallback generator, and the adaptive-difficulty selector.

Modelling conventions:
* Python string primitives are given executable models over `List Char`
  (wrapped back into `String`): `pyStripS` is `str.strip()`, `pySplitS`
  is `str.split(sep)` for a non-empty separator, `pyReplaceS` is
  `str.replace(old, new)` (every occurrence, left to right),
  `pyStartsWithS` is `str.startswith`, and `pyContains` is the Python
  `in` substring test.  All are structurally recursive so that concrete
  runs of the parsers reduce inside the kernel.
* A Python dict that accumulates optional keys is modelled as a structure
  of `Option` fields; dict truthiness (non-emptiness) is the disjunction
  of the fields' `isSome`.
* SQL floating-point arithmetic (`AVG(score * 100.0 / total_questions)`)
  is modelled over `ℚ`; the claims only touch exactly representable
  values.  Quiz attempts always have a positive `total_questions`, so the
  SQLite NULL-on-zero-divisor corner is not modelled.
-/

/-! ## Python string primitives -/

/-- `str.strip()`: drop whitespace from both ends. -/
def pyStrip (s : List Char) : List Char :=
  ((s.dropWhile Char.isWhitespace).reverse.dropWhile Char.isWhitespace).reverse

/-- Fuel-driven worker for `str.split(sep)` with non-empty `sep`: scan left
to right, cutting at each (non-overlapping) occurrence of `sep`.  The fuel
starts at the string length and decreases once per step; since a matching
step consumes `sep.length ≥ 1` characters and a non-matching step consumes
one, the fuel never runs out when initialized that way. -/
def pySplitAux (sep : List Char) : Nat → List Char → List Char → List (List Char)
  | _, [], cur => [cur.reverse]
  | 0, s, cur => [cur.reverse ++ s]
  | fuel + 1, s, cur =>
    if sep.isPrefixOf s then
      cur.reverse :: pySplitAux sep fuel (s.drop sep.length) []
    else
      match s with
      | [] => [cur.reverse]
      | c :: rest => pySplitAux sep fuel rest (c :: cur)

/-- `str.split(sep)` for the non-empty literal separators the code uses. -/
def pySplit (s sep : List Char) : List (List Char) :=
  pySplitAux sep s.length s []

/-- Fuel-driven worker for `str.replace(old, new)` with non-empty `old`:
replace every non-overlapping occurrence, scanning left to right. -/
def pyReplaceAux (pat rep : List Char) : Nat → List Char → List Char
  | _, [] => []
  | 0, s => s
  | fuel + 1, s =>
    if pat.isPrefixOf s then
      rep ++ pyReplaceAux pat rep fuel (s.drop pat.length)
    else
      match s with
      | [] => []
      | c :: rest => c :: pyReplaceAux pat rep fuel rest

/-- String-level wrappers. -/
def pyStripS (s : String) : String := String.mk (pyStrip s.data)

def pySplitS (s sep : String) : List String := (pySplit s.data sep.data).map String.mk

def pyReplaceS (s pat rep : String) : String :=
  String.mk (pyReplaceAux pat.data rep.data s.data.length s.data)

/-- `str.startswith(pat)`. -/
def pyStartsWithS (pat s : String) : Bool := pat.data.isPrefixOf s.data

/-- Python's substring test `pat in s` (for the non-empty literals the code
uses): the string splits into at least two parts around the pattern. -/
def pyContains (s pat : String) : Bool := 2 ≤ (pySplitS s pat).length

/-! ## Quiz extractor (app.py lines 538–559, inline in `upload_pdf`) -/

/-- One parsed quiz question.  The Python dict created at a question-start
line always carries the keys `question`, `options`, `explanation`; the
`answer` key appears only once a `Correct Answer:` line is seen, hence
`answer : Option String`. -/
structure QuizQuestion where
  question : String
  options : List String
  answer : Option String
  explanation : String
deriving Repr, DecidableEq

/-- The ten numbered-question markers the code recognizes:
`line.startswith(('1.', '2.', ..., '10.'))`. -/
def numberMarkers : List String :=
  ["1.", "2.", "3.", "4.", "5.", "6.", "7.", "8.", "9.", "10."]

/-- The option-letter markers: `line.startswith(('A)', 'B)', 'C)', 'D)', 'E)'))`. -/
def optionMarkers : List String :=
  ["A)", "B)", "C)", "D)", "E)"]

/-- `line.startswith(('1.', ..., '10.')) and 'Question:' in line`. -/
def isQuestionStart (t : String) : Bool :=
  numberMarkers.any (fun m => pyStartsWithS m t) && pyContains t "Question:"

/-- `line.startswith(('A)', 'B)', 'C)', 'D)', 'E)'))`. -/
def isOptionLine (t : String) : Bool :=
  optionMarkers.any (fun m => pyStartsWithS m t)

/-- `line.split('Question:')[1].strip()` — the text after the first
`Question:` occurrence (up to the next occurrence, if any). -/
def afterQuestionMarker (t : String) : String :=
  pyStripS (((pySplitS t "Question:").drop 1).headD "")

/-- One iteration of the quiz-parsing loop body (app.py 541–555).  The
state is the in-progress record (`none` models the initial empty dict
`current_question = {}`) together with the accumulated output.  Each
Python `elif` guard `... and current_question` becomes `... && cur.isSome`
in the condition; the unreachable `none` branches inside the matches
return the state unchanged. -/
def quizStep (st : Option QuizQuestion × List QuizQuestion) (rawLine : String) :
    Option QuizQuestion × List QuizQuestion :=
  let line := pyStripS rawLine
  let cur := st.1
  let acc := st.2
  if line = "" then st
  else if isQuestionStart line then
    let acc' :=
      match cur with
      | some q => acc ++ [q]
      | none => acc
    (some { question := afterQuestionMarker line, options := [],
            answer := none, explanation := "" }, acc')
  else if isOptionLine line && cur.isSome then
    match cur with
    | some q => (some { q with options := q.options ++ [pyStripS line] }, acc)
    | none => st
  else if pyStartsWithS "Correct Answer:" line && cur.isSome then
    match cur with
    | some q =>
        (some { q with answer := some (pyStripS (pyReplaceS line "Correct Answer:" "")) }, acc)
    | none => st
  else if pyStartsWithS "Explanation:" line && cur.isSome then
    match cur with
    | some q =>
        (some { q with explanation := pyStripS (pyReplaceS line "Explanation:" "") }, acc)
    | none => st
  else st

/-- The end-of-input flush (app.py 557–559): append the in-progress record
if it exists (a non-empty `current_question` dict always has the
`question` key). -/
def finalizeState (st : Option QuizQuestion × List QuizQuestion) : List QuizQuestion :=
  match st.1 with
  | some q => st.2 ++ [q]
  | none => st.2

/-- The quiz extractor run over a list of raw lines. -/
def parseQuizLines (lines : List String) : List QuizQuestion :=
  finalizeState (lines.foldl quizStep (none, []))

/-- The quiz extractor of `upload_pdf` (app.py 538–559): split the
generated text on newlines and run the line loop. -/
def parseQuiz (text : String) : List QuizQuestion :=
  parseQuizLines (pySplitS text "\n")

/-! ## Quiz endpoint response shape (app.py 561–567) -/

/-- The response the `upload_pdf` handler builds after a successful
generation: HTTP 200 carrying the parsed quiz list.  The error payload
(status 500 with an `error` field) arises only from exceptions of earlier
stages; the parse loop itself is total. -/
structure UploadQuizResponse where
  status : Nat
  quiz : List QuizQuestion
  errorMsg : Option String
deriving Repr, DecidableEq

/-- app.py 561–565: for any generated text the handler returns status 200
carrying the parsed quiz (possibly empty) and no error field. -/
def upload_pdf_quiz_response (quiz_response : String) : UploadQuizResponse :=
  { status := 200, quiz := parseQuiz quiz_response, errorMsg := none }

/-! ## Schedule extractor (app.py 410–443, in `generate_study_schedule_from_pdf`) -/

/-- One schedule day.  The Python dict may hold any subset of the keys
`day`, `topics`, `activities`, `duration`, hence all fields optional. -/
structure ScheduleDay where
  day : Option String
  topics : Option String
  activities : Option String
  duration : Option String
deriving Repr, DecidableEq

/-- Truthiness of the `current_day` dict: some key is present. -/
def schedTruthy (d : ScheduleDay) : Bool :=
  d.day.isSome || d.topics.isSome || d.activities.isSome || d.duration.isSome

/-- The initial empty `current_day = {}`. -/
def emptyDay : ScheduleDay := ⟨none, none, none, none⟩

/-- `line.replace(dashMarker, '').replace(marker, '').strip()` — both
replacements remove every occurrence, as in Python. -/
def fieldValue (line dashMarker marker : String) : String :=
  pyStripS (pyReplaceS (pyReplaceS line dashMarker "") marker "")

/-- One iteration of the schedule-parsing loop body (app.py 414–432).
Python operator precedence makes each field guard
`line.startswith('- X:') or (line.startswith('X:') and current_day)`:
the dash form is NOT guarded by dict truthiness — modelled verbatim. -/
def schedStep (st : ScheduleDay × List ScheduleDay) (rawLine : String) :
    ScheduleDay × List ScheduleDay :=
  let line := pyStripS rawLine
  let cur := st.1
  let acc := st.2
  if line = "" then st
  else if pyStartsWithS "Day " line then
    let acc' := if schedTruthy cur && cur.topics.isSome then acc ++ [cur] else acc
    ({ emptyDay with day := some (pyStripS ((pySplitS line ":").headD "")) }, acc')
  else if pyStartsWithS "- Topics:" line || (pyStartsWithS "Topics:" line && schedTruthy cur) then
    ({ cur with topics := some (fieldValue line "- Topics:" "Topics:") }, acc)
  else if pyStartsWithS "- Activities:" line || (pyStartsWithS "Activities:" line && schedTruthy cur) then
    ({ cur with activities := some (fieldValue line "- Activities:" "Activities:") }, acc)
  else if pyStartsWithS "- Duration:" line || (pyStartsWithS "Duration:" line && schedTruthy cur) then
    ({ cur with duration := some (fieldValue line "- Duration:" "Duration:") }, acc)
  else st

/-- The schedule extractor (app.py 410–436): loop over lines, then the
end-of-input flush `if current_day and 'topics' in current_day`. -/
def parseSchedule (text : String) : List ScheduleDay :=
  let st := (pySplitS text "\n").foldl schedStep (emptyDay, [])
  if schedTruthy st.1 && st.1.topics.isSome then st.2 ++ [st.1] else st.2

/-- app.py 449–472.  `hoursStr` is the printed form of the Python float
`hours_per_day` interpolated by the f-string `f'{hours_per_day} hours'`;
`duration_days` is the bound of the loop `range(1, duration_days + 1)`. -/
def generate_fallback_schedule (duration_days : Nat) (hoursStr : String) :
    List ScheduleDay :=
  (List.range' 1 duration_days).map (fun i =>
    { day := some ("Day " ++ toString i),
      topics := some ("Study session " ++ toString i ++ ": Review PDF materials"),
      activities := some "Read chapters, take notes, review key concepts",
      duration := some (hoursStr ++ " hours") })

/-- app.py 360–447, abstracted over the Completion Gateway: `none` models
the API call raising (the `except` path of lines 404–407), `some text` a
successful response.  A failed call or an empty parse yields the
fallback (lines 439–441). -/
def generate_study_schedule_from_pdf (llmResponse : Option String)
    (duration_days : Nat) (hoursStr : String) : List ScheduleDay :=
  match llmResponse with
  | none => generate_fallback_schedule duration_days hoursStr
  | some schedule_text =>
    let schedule := parseSchedule schedule_text
    if schedule.isEmpty then generate_fallback_schedule duration_days hoursStr
    else schedule

/-! ## Adaptive difficulty (app.py 502–528, inline in `upload_pdf`) -/

inductive Difficulty
  | easy
  | medium
  | difficult
deriving Repr, DecidableEq

/-- One attempt's percentage: `score * 100.0 / total_questions`. -/
def attemptPct (a : Nat × Nat) : ℚ :=
  (a.1 : ℚ) * 100 / (a.2 : ℚ)

/-- SQL `AVG(score * 100.0 / total_questions)` over the rows the query
actually aggregates.  NB: in the code's query the `ORDER BY created_at
DESC LIMIT 5` clauses apply to the single already-aggregated result row,
so the average ranges over ALL of the user's attempts; `none` models the
NULL average of an empty row set (`result['avg_score'] is None`). -/
def avgScore (hist : List (Nat × Nat)) : Option ℚ :=
  match hist with
  | [] => none
  | _ => some ((hist.map attemptPct).sum / (hist.length : ℚ))

/-- app.py 523–528: the threshold mapping applied to the average. -/
def difficultyFor (avg : ℚ) : Difficulty :=
  if avg > 80 then Difficulty.difficult
  else if avg < 50 then Difficulty.easy
  else Difficulty.medium

/-- The difficulty the code selects from a user's attempt history
(newest first): the thresholds applied to the un-windowed average;
`none` when there is no history. -/
def adaptiveDifficulty (hist : List (Nat × Nat)) : Option Difficulty :=
  (avgScore hist).map difficultyFor

/-- The selector as the spec describes it: the average ranges over only
the (at most) 5 most recent attempts. -/
def windowedDifficulty (hist : List (Nat × Nat)) : Option Difficulty :=
  adaptiveDifficulty (hist.take 5)

/-! ## Helper lemmas -/

/-- A question-start line is never blank. -/
theorem isQuestionStart_ne_empty {t : String} (h : isQuestionStart t = true) : t ≠ "" := by
  intro he
  rw [he] at h
  exact absurd h (by decide)

/-- A line whose stripped form is not a question start leaves the
quiescent parser state unchanged. -/
theorem quizStep_none (l : String) (acc : List QuizQuestion)
    (h : isQuestionStart (pyStripS l) = false) :
    quizStep (none, acc) l = (none, acc) := by
  by_cases h0 : pyStripS l = ""
  · simp [quizStep, h0]
  · simp [quizStep, h0, h]

/-- With no question-start line in sight, the parser stays in the
quiescent state. -/
theorem foldl_quizStep_none (lines : List String) (acc : List QuizQuestion)
    (h : ∀ l ∈ lines, isQuestionStart (pyStripS l) = false) :
    lines.foldl quizStep (none, acc) = (none, acc) := by
  induction lines with
  | nil => rfl
  | cons l ls ih =>
    rw [List.foldl_cons, quizStep_none l acc (h l (by simp))]
    exact ih fun x hx => h x (by simp [hx])

/-- Membership in the finalized output comes from the accumulator or the
in-progress record. -/
theorem mem_finalizeState {q : QuizQuestion} {st : Option QuizQuestion × List QuizQuestion}
    (h : q ∈ finalizeState st) : q ∈ st.2 ∨ st.1 = some q := by
  obtain ⟨c, a⟩ := st
  cases c with
  | none => exact Or.inl h
  | some q0 =>
    rcases List.mem_append.mp h with h1 | h1
    · exact Or.inl h1
    · simp only [List.mem_singleton] at h1
      subst h1
      exact Or.inr rfl

/-! ## Claims -/

/-- Claim C1: the code computes the average over the whole attempt
history, not over the 5 most recent attempts.  The SQL clause `ORDER BY
created_at DESC LIMIT 5` sits on an aggregate query that returns a
single row, so it windows nothing.  With five recent 90% attempts and
one older 0% attempt the code selects `medium` (average 75), while the
windowed selector of the claim selects `difficult` (average 90): the
sixth-newest attempt changes the selected tier. -/
theorem C1_unwindowed_average :
    adaptiveDifficulty [(9, 10), (9, 10), (9, 10), (9, 10), (9, 10), (0, 10)] =
      some Difficulty.medium ∧
    windowedDifficulty [(9, 10), (9, 10), (9, 10), (9, 10), (9, 10), (0, 10)] =
      some Difficulty.difficult := by
  constructor
  · norm_num [adaptiveDifficulty, avgScore, attemptPct, difficultyFor]
  · norm_num [windowedDifficulty, adaptiveDifficulty, avgScore, attemptPct, difficultyFor]

/-- Claim C2: a `- Topics:` line arriving before any `Day ` header is
stored into the empty in-progress dict (the Python guard
`and current_day` only covers the dash-less form, by operator
precedence), and the resulting record — which carries no label at all —
is emitted at the next `Day ` header.  The first emitted record of this
input has `day = none`. -/
theorem C2_label_less_record :
    parseSchedule "- Topics: intro\nDay 1:\n- Topics: x" =
      [{ day := none, topics := some "intro", activities := none, duration := none },
       { day := some "Day 1", topics := some "x", activities := none, duration := none }] ∧
    ∃ r ∈ parseSchedule "- Topics: intro\nDay 1:\n- Topics: x", r.day = none := by
  constructor
  · decide
  · decide

/-- Claim C3 (counterexample): generated text from which zero questions
are extracted is answered with the ordinary success shape — status 200,
an empty quiz list and no error field — exactly like a successful
non-empty quiz, contradicting the claimed explicit failure signal. -/
theorem C3_counterexample :
    parseQuiz "A) stray option\nCorrect Answer: B\nExplanation: none apply" = [] ∧
    upload_pdf_quiz_response "A) stray option\nCorrect Answer: B\nExplanation: none apply" =
      { status := 200, quiz := [], errorMsg := none } := by
  constructor
  · decide
  · decide

/-- Claim C3 (amended): when extraction yields zero records the endpoint
returns an ordinary success response carrying an empty quiz list and no
failure signal; indeed every generated text is answered with status 200
and no error field. -/
theorem C3_empty_parse_is_plain_success (s : String) (h : parseQuiz s = []) :
    upload_pdf_quiz_response s = { status := 200, quiz := [], errorMsg := none } ∧
    ∀ t : String, (upload_pdf_quiz_response t).status = 200 ∧
      (upload_pdf_quiz_response t).errorMsg = none := by
  refine ⟨?_, fun t => ⟨rfl, rfl⟩⟩
  simp [upload_pdf_quiz_response, h]

/-- Witness for C3 at a concrete unparseable text. -/
theorem C3_witness :
    upload_pdf_quiz_response "no quiz here" =
      { status := 200, quiz := [], errorMsg := none } :=
  (C3_empty_parse_is_plain_success "no quiz here" (by decide)).1

/-- Claim C4 (counterexample): the flush check is `'question' in
current_question` — key presence, not non-emptiness.  The line
`1. Question:` creates a record whose prompt is the empty string, and the
next numbered marker flushes it into the output: the first emitted
record has an empty prompt. -/
theorem C4_counterexample :
    parseQuiz "1. Question:\n2. Question: second" =
      [{ question := "", options := [], answer := none, explanation := "" },
       { question := "second", options := [], answer := none, explanation := "" }] ∧
    ∃ q ∈ parseQuiz "1. Question:\n2. Question: second", q.question = "" := by
  constructor
  · decide
  · decide

/-- Claim C4 (amended): on seeing a numbered-question marker line the
extractor flushes the in-progress record whenever one exists — its
prompt may be empty — and the end-of-input flush likewise appends any
in-progress record; a record only ever comes into existence at a
numbered `Question:` marker line, so text without such lines yields no
records. -/
theorem C4_marker_flush (cur : Option QuizQuestion) (acc : List QuizQuestion)
    (rawLine : String) (h : isQuestionStart (pyStripS rawLine) = true) :
    (quizStep (cur, acc) rawLine).2 = acc ++ cur.toList ∧
    finalizeState (cur, acc) = acc ++ cur.toList ∧
    ∀ text : String,
      (∀ l ∈ pySplitS text "\n", isQuestionStart (pyStripS l) = false) →
      parseQuiz text = [] := by
  have h0 : pyStripS rawLine ≠ "" := isQuestionStart_ne_empty h
  refine ⟨?_, ?_, ?_⟩
  · cases cur <;> simp [quizStep, h0, h, Option.toList]
  · cases cur <;> simp [finalizeState, Option.toList]
  · intro text ht
    rw [parseQuiz, parseQuizLines, foldl_quizStep_none _ _ ht]
    rfl

/-- Witness for C4: flushing a record whose prompt is empty. -/
theorem C4_witness :
    (quizStep (some { question := "", options := [], answer := none, explanation := "" },
        ([] : List QuizQuestion)) "2. Question: second").2 =
      [{ question := "", options := [], answer := none, explanation := "" }] := by
  have := (C4_marker_flush
    (some { question := "", options := [], answer := none, explanation := "" })
    [] "2. Question: second" (by decide)).1
  simpa using this

/-- Claim C5: a failed completion call, or a successful call whose text
parses to zero day records, produces the deterministic fallback: exactly
`duration_days` records; every record carries the fixed activity list,
a generic per-day topic, and a duration that is the literal hours-per-day
value followed by the fixed suffix ` hours` (the formatting of normal
output). -/
theorem C5_schedule_fallback (d : Nat) (hrs : String) (text : String)
    (hempty : parseSchedule text = []) :
    generate_study_schedule_from_pdf none d hrs = generate_fallback_schedule d hrs ∧
    generate_study_schedule_from_pdf (some text) d hrs = generate_fallback_schedule d hrs ∧
    (generate_fallback_schedule d hrs).length = d ∧
    ∀ r ∈ generate_fallback_schedule d hrs,
      r.duration = some (hrs ++ " hours") ∧
      r.activities = some "Read chapters, take notes, review key concepts" ∧
      ∃ i : Nat, 1 ≤ i ∧ i ≤ d ∧
        r.day = some ("Day " ++ toString i) ∧
        r.topics = some ("Study session " ++ toString i ++ ": Review PDF materials") := by
  refine ⟨rfl, ?_, ?_, ?_⟩
  · simp [generate_study_schedule_from_pdf, hempty]
  · simp [generate_fallback_schedule]
  · intro r hr
    simp only [generate_fallback_schedule, List.mem_map] at hr
    obtain ⟨i, hi, rfl⟩ := hr
    rw [List.mem_range'_1] at hi
    exact ⟨rfl, rfl, i, hi.1, by omega, rfl, rfl⟩

/-- Witness for C5 at a concrete unparseable text. -/
theorem C5_witness :
    generate_study_schedule_from_pdf (some "unparseable") 3 "2.5" =
      generate_fallback_schedule 3 "2.5" :=
  (C5_schedule_fallback 3 "2.5" "unparseable" (by decide)).2.1

/-- Claim C6: the difficulty mapping applied to the mean the code
computes — strictly above 80 gives `difficult`, strictly below 50 gives
`easy`, the closed band in between (including exactly 80 and exactly 50)
gives `medium`, and an empty history selects no tier. -/
theorem C6_difficulty_mapping (hist : List (Nat × Nat)) (v : ℚ)
    (hv : avgScore hist = some v) :
    (80 < v → adaptiveDifficulty hist = some Difficulty.difficult) ∧
    (v < 50 → adaptiveDifficulty hist = some Difficulty.easy) ∧
    (50 ≤ v → v ≤ 80 → adaptiveDifficulty hist = some Difficulty.medium) ∧
    adaptiveDifficulty [] = none := by
  have hmap : adaptiveDifficulty hist = some (difficultyFor v) := by
    rw [adaptiveDifficulty, hv]
    rfl
  refine ⟨fun h => ?_, fun h => ?_, fun h1 h2 => ?_, rfl⟩
  · rw [hmap, difficultyFor, if_pos h]
  · rw [hmap, difficultyFor, if_neg (by linarith), if_pos h]
  · rw [hmap, difficultyFor, if_neg (by linarith), if_neg (by linarith)]

/-- Witness for C6: a single attempt at exactly 80% selects `medium`. -/
theorem C6_witness :
    adaptiveDifficulty [(4, 5)] = some Difficulty.medium :=
  (C6_difficulty_mapping [(4, 5)] 80 (by norm_num [avgScore, attemptPct])).2.2.1
    (by norm_num) (by norm_num)

/-- Claim C8: the end-to-end schedule example — two records, the second
with label and topics only. -/
theorem C8_schedule_example :
    parseSchedule "Day 1:\n- Topics: intro\n- Activities: read\n- Duration: 1 hour\nDay 2:\n- Topics: advanced" =
      [{ day := some "Day 1", topics := some "intro",
         activities := some "read", duration := some "1 hour" },
       { day := some "Day 2", topics := some "advanced",
         activities := none, duration := none }] ∧
    (parseSchedule "Day 1:\n- Topics: intro\n- Activities: read\n- Duration: 1 hour\nDay 2:\n- Topics: advanced").length = 2 ∧
    ((parseSchedule "Day 1:\n- Topics: intro\n- Activities: read\n- Duration: 1 hour\nDay 2:\n- Topics: advanced").getD 1 emptyDay).activities = none ∧
    ((parseSchedule "Day 1:\n- Topics: intro\n- Activities: read\n- Duration: 1 hour\nDay 2:\n- Topics: advanced").getD 1 emptyDay).duration = none := by
  refine ⟨?_, ?_, ?_, ?_⟩ <;> decide

/-- Claim C9: text containing no `Question:` marker line yields zero quiz
records — stray option, answer and explanation lines are ignored because
the only branches that consume them require an in-progress question. -/
theorem C9_no_marker_no_records (text : String)
    (h : ∀ l ∈ pySplitS text "\n", pyContains (pyStripS l) "Question:" = false) :
    parseQuiz text = [] := by
  have h' : ∀ l ∈ pySplitS text "\n", isQuestionStart (pyStripS l) = false := by
    intro l hl
    simp [isQuestionStart, h l hl]
  rw [parseQuiz, parseQuizLines, foldl_quizStep_none _ _ h']
  rfl

/-- Witness for C9 on stray option, answer and explanation lines. -/
theorem C9_witness :
    parseQuiz "A) stray\nCorrect Answer: B\nExplanation: nothing" = [] :=
  C9_no_marker_no_records "A) stray\nCorrect Answer: B\nExplanation: nothing" (by decide)

/-- If no line carries the `Correct Answer:` marker, each step of the
parser preserves the invariant that neither the in-progress record nor
any accumulated record has an answer. -/
theorem foldl_quizStep_no_answer (lines : List String) :
    ∀ (cur : Option QuizQuestion) (acc : List QuizQuestion),
    (∀ l ∈ lines, pyStartsWithS "Correct Answer:" (pyStripS l) = false) →
    (∀ q : QuizQuestion, cur = some q → q.answer = none) →
    (∀ q ∈ acc, q.answer = none) →
    (∀ q : QuizQuestion, (lines.foldl quizStep (cur, acc)).1 = some q → q.answer = none) ∧
    (∀ q ∈ (lines.foldl quizStep (cur, acc)).2, q.answer = none) := by
  induction lines with
  | nil => exact fun cur acc _ hc ha => ⟨hc, ha⟩
  | cons l ls ih =>
    intro cur acc hl hc ha
    have hl0 : pyStartsWithS "Correct Answer:" (pyStripS l) = false := hl l (by simp)
    have hls : ∀ x ∈ ls, pyStartsWithS "Correct Answer:" (pyStripS x) = false :=
      fun x hx => hl x (by simp [hx])
    rw [List.foldl_cons]
    by_cases h0 : pyStripS l = ""
    · rw [show quizStep (cur, acc) l = (cur, acc) by simp [quizStep, h0]]
      exact ih cur acc hls hc ha
    by_cases h1 : isQuestionStart (pyStripS l) = true
    · have hstep : quizStep (cur, acc) l =
          (some { question := afterQuestionMarker (pyStripS l), options := [],
                  answer := none, explanation := "" }, acc ++ cur.toList) := by
        cases cur <;> simp [quizStep, h0, h1, Option.toList]
      rw [hstep]
      refine ih _ _ hls (fun q hq => by injection hq with hq; rw [← hq]) ?_
      intro q hq
      rcases List.mem_append.mp hq with h | h
      · exact ha q h
      · cases cur with
        | none => simp at h
        | some q0 =>
          simp only [Option.toList, List.mem_singleton] at h
          subst h
          exact hc q rfl
    · cases cur with
      | none =>
        rw [show quizStep (none, acc) l = (none, acc) from
          quizStep_none l acc (by simpa using h1)]
        exact ih none acc hls hc ha
      | some q0 =>
        have hq0 : q0.answer = none := hc q0 rfl
        by_cases h2 : isOptionLine (pyStripS l) = true
        · rw [show quizStep (some q0, acc) l =
              (some { q0 with options := q0.options ++ [pyStripS (pyStripS l)] }, acc) by
            simp [quizStep, h0, h1, h2]]
          exact ih _ acc hls (fun q hq => by injection hq with hq; rw [← hq]; exact hq0) ha
        by_cases h3 : pyStartsWithS "Explanation:" (pyStripS l) = true
        · rw [show quizStep (some q0, acc) l =
              (some { q0 with
                  explanation := pyStripS (pyReplaceS (pyStripS l) "Explanation:" "") }, acc) by
            simp [quizStep, h0, h1, h2, h3, hl0]]
          exact ih _ acc hls (fun q hq => by injection hq with hq; rw [← hq]; exact hq0) ha
        · rw [show quizStep (some q0, acc) l = (some q0, acc) by
            simp [quizStep, h0, h1, h2, h3, hl0]]
          exact ih _ acc hls hc ha

/-- Claim C10: the options and explanation fields of every emitted record
are always defined (they are initialized at the creating marker line),
but the answer field exists only when a `Correct Answer:` line was seen:
if no line carries that marker every emitted record has no answer value;
a concrete record emitted with no answer at all; and within one question,
repeated `Correct Answer:` and `Explanation:` lines overwrite (the last
one wins) while option lines accumulate in order. -/
theorem C10_answer_provenance :
    (∀ text : String,
      (∀ l ∈ pySplitS text "\n", pyStartsWithS "Correct Answer:" (pyStripS l) = false) →
      ∀ q ∈ parseQuiz text, q.answer = none) ∧
    parseQuiz "1. Question: alone" =
      [{ question := "alone", options := [], answer := none, explanation := "" }] ∧
    parseQuiz "1. Question: q\nA) one\nCorrect Answer: X\nB) two\nCorrect Answer: Y\nExplanation: E1\nExplanation: E2" =
      [{ question := "q", options := ["A) one", "B) two"],
         answer := some "Y", explanation := "E2" }] := by
  refine ⟨?_, by decide, by decide⟩
  intro text ht q hq
  have main := foldl_quizStep_no_answer (pySplitS text "\n") none [] ht
    (fun q hq => by exact absurd hq (by simp)) (by simp)
  rw [parseQuiz, parseQuizLines] at hq
  rcases mem_finalizeState hq with h | h
  · exact main.2 q h
  · exact main.1 q h

/-- Witness for C10: the single record of a marker-only text carries no
answer value. -/
theorem C10_witness :
    ({ question := "alone", options := [], answer := none,
       explanation := "" } : QuizQuestion).answer = none :=
  C10_answer_provenance.1 "1. Question: alone" (by decide)
    { question := "alone", options := [], answer := none, explanation := "" } (by decide)

/-! ## Well-formed quiz text, organized in blocks (for C7) -/

/-- One question block of the documented quiz format: the numbered
`Question:` header line followed by its body lines (`Options:` header,
option lines, `Correct Answer:` line, `Explanation:` line). -/
structure QuizBlock where
  header : String
  body : List String
deriving Repr, DecidableEq

/-- The lines of a block sequence, in order. -/
def blockLines : List QuizBlock → List String
  | [] => []
  | b :: rest => b.header :: (b.body ++ blockLines rest)

/-- A body line the parser consumes as an option: non-blank and starting
with an option-letter marker. -/
def isCountedOption (l : String) : Bool :=
  !(pyStripS l == "") && isOptionLine (pyStripS l)

/-- How many option lines a body contributes. -/
def countOptionLines (body : List String) : Nat :=
  (body.filter isCountedOption).length

/-- Well-formedness of the block numbered `n`: the header is a recognized
question start carrying the marker of ordinal `n` and a non-empty prompt,
no body line is a question start, and the body carries 4 or 5 option
lines. -/
def goodBlock (n : Nat) (b : QuizBlock) : Bool :=
  isQuestionStart (pyStripS b.header) &&
  pyStartsWithS (toString n ++ ".") (pyStripS b.header) &&
  !(afterQuestionMarker (pyStripS b.header) == "") &&
  b.body.all (fun l => !(isQuestionStart (pyStripS l))) &&
  decide (4 ≤ countOptionLines b.body) &&
  decide (countOptionLines b.body ≤ 5)

/-- Well-formedness of a block sequence numbered from `n`. -/
def goodBlocksFrom : Nat → List QuizBlock → Bool
  | _, [] => true
  | n, b :: rest => goodBlock n b && goodBlocksFrom (n + 1) rest

/-- The record/block correspondence claim C7 asserts: the record carries
the prompt of the block header (non-empty) and one option per option line
of the body, between 4 and 5 of them. -/
def matchesBlock (q : QuizQuestion) (b : QuizBlock) : Prop :=
  q.question = afterQuestionMarker (pyStripS b.header) ∧
  q.question ≠ "" ∧
  q.options.length = countOptionLines b.body ∧
  4 ≤ q.options.length ∧ q.options.length ≤ 5

/-- Running the parser over body lines (none of them question starts)
keeps the in-progress record open and the accumulator untouched,
preserves the prompt, and appends exactly one option per counted option
line. -/
theorem foldl_quizStep_body (body : List String) :
    ∀ (q : QuizQuestion) (acc : List QuizQuestion),
    (∀ l ∈ body, isQuestionStart (pyStripS l) = false) →
    ∃ q' : QuizQuestion,
      body.foldl quizStep (some q, acc) = (some q', acc) ∧
      q'.question = q.question ∧
      q'.options.length = q.options.length + countOptionLines body := by
  induction body with
  | nil =>
    exact fun q acc _ => ⟨q, rfl, rfl, by simp [countOptionLines]⟩
  | cons l ls ih =>
    intro q acc h
    have hl : isQuestionStart (pyStripS l) = false := h l (by simp)
    have hrest : ∀ x ∈ ls, isQuestionStart (pyStripS x) = false :=
      fun x hx => h x (by simp [hx])
    rw [List.foldl_cons]
    by_cases h0 : pyStripS l = ""
    · rw [show quizStep (some q, acc) l = (some q, acc) by simp [quizStep, h0]]
      obtain ⟨q', e, hq, ho⟩ := ih q acc hrest
      refine ⟨q', e, hq, ?_⟩
      rw [ho]
      have : countOptionLines (l :: ls) = countOptionLines ls := by
        simp [countOptionLines, List.filter_cons, isCountedOption, h0]
      rw [this]
    · by_cases h2 : isOptionLine (pyStripS l) = true
      · rw [show quizStep (some q, acc) l =
            (some { q with options := q.options ++ [pyStripS (pyStripS l)] }, acc) by
          simp [quizStep, h0, hl, h2]]
        obtain ⟨q', e, hq, ho⟩ := ih _ acc hrest
        refine ⟨q', e, hq, ?_⟩
        rw [ho]
        have hcnt : countOptionLines (l :: ls) = countOptionLines ls + 1 := by
          simp [countOptionLines, List.filter_cons, isCountedOption, h0, h2]
        rw [hcnt]
        simp
        omega
      · by_cases h3 : pyStartsWithS "Correct Answer:" (pyStripS l) = true
        · rw [show quizStep (some q, acc) l =
              (some { q with
                  answer := some (pyStripS (pyReplaceS (pyStripS l) "Correct Answer:" "")) },
               acc) by simp [quizStep, h0, hl, h2, h3]]
          obtain ⟨q', e, hq, ho⟩ := ih _ acc hrest
          refine ⟨q', e, hq, ?_⟩
          rw [ho]
          have : countOptionLines (l :: ls) = countOptionLines ls := by
            simp [countOptionLines, List.filter_cons, isCountedOption, h0, h2]
          rw [this]
        · by_cases h4 : pyStartsWithS "Explanation:" (pyStripS l) = true
          · rw [show quizStep (some q, acc) l =
                (some { q with
                    explanation := pyStripS (pyReplaceS (pyStripS l) "Explanation:" "") },
                 acc) by simp [quizStep, h0, hl, h2, h3, h4]]
            obtain ⟨q', e, hq, ho⟩ := ih _ acc hrest
            refine ⟨q', e, hq, ?_⟩
            rw [ho]
            have : countOptionLines (l :: ls) = countOptionLines ls := by
              simp [countOptionLines, List.filter_cons, isCountedOption, h0, h2]
            rw [this]
          · rw [show quizStep (some q, acc) l = (some q, acc) by
              simp [quizStep, h0, hl, h2, h3, h4]]
            obtain ⟨q', e, hq, ho⟩ := ih q acc hrest
            refine ⟨q', e, hq, ?_⟩
            rw [ho]
            have : countOptionLines (l :: ls) = countOptionLines ls := by
              simp [countOptionLines, List.filter_cons, isCountedOption, h0, h2]
            rw [this]

/-- Running the parser over the lines of a well-formed block sequence
appends, after finalization, exactly one matching record per block. -/
theorem foldl_quizStep_blocks (blocks : List QuizBlock) :
    ∀ (n : Nat) (cur : Option QuizQuestion) (acc : List QuizQuestion),
    goodBlocksFrom n blocks = true →
    ∃ res : List QuizQuestion,
      finalizeState ((blockLines blocks).foldl quizStep (cur, acc)) =
        finalizeState (cur, acc) ++ res ∧
      List.Forall₂ matchesBlock res blocks := by
  induction blocks with
  | nil => exact fun n cur acc _ => ⟨[], by simp [blockLines], List.Forall₂.nil⟩
  | cons b rest ih =>
    intro n cur acc hg
    rw [goodBlocksFrom, Bool.and_eq_true] at hg
    obtain ⟨hgb, hgr⟩ := hg
    rw [goodBlock] at hgb
    simp only [Bool.and_eq_true, Bool.not_eq_true', beq_iff_eq,
      List.all_eq_true, decide_eq_true_eq] at hgb
    obtain ⟨⟨⟨⟨⟨hq, hmark⟩, hprompt⟩, hbody⟩, hc4⟩, hc5⟩ := hgb
    have hbody' : ∀ l ∈ b.body, isQuestionStart (pyStripS l) = false := by
      intro l hl
      simpa using hbody l hl
    have h0 : pyStripS b.header ≠ "" := isQuestionStart_ne_empty hq
    have hstep : quizStep (cur, acc) b.header =
        (some { question := afterQuestionMarker (pyStripS b.header), options := [],
                answer := none, explanation := "" }, acc ++ cur.toList) := by
      cases cur <;> simp [quizStep, h0, hq, Option.toList]
    rw [show blockLines (b :: rest) = b.header :: (b.body ++ blockLines rest) from rfl,
      List.foldl_cons, hstep, List.foldl_append]
    obtain ⟨q', e, hq', ho⟩ := foldl_quizStep_body b.body _ (acc ++ cur.toList) hbody'
    rw [e]
    obtain ⟨res, er, hrel⟩ := ih (n + 1) (some q') (acc ++ cur.toList) hgr
    refine ⟨q' :: res, ?_, List.Forall₂.cons ⟨?_, ?_, ?_, ?_, ?_⟩ hrel⟩
    · rw [er]
      cases cur <;> simp [finalizeState, Option.toList]
    · simpa using hq'
    · rw [hq']
      simpa using hprompt
    · rw [ho]
      simp
    · rw [ho]
      simpa using hc4
    · rw [ho]
      simpa using hc5

/-- Claim C7: on generated text whose lines form a well-formed sequence
of numbered question blocks (ordinals 1, 2, ...; well-formedness forces
at most 10 of them, since the eleventh marker is not recognized), the
extractor returns exactly one record per block, in block order, each
carrying the non-empty prompt of its header and between 4 and 5 options;
and any line recognized as a question start carries one of the markers
of ordinals 1 through 10. -/
theorem C7_wellformed_quiz_parse (text : String) (blocks : List QuizBlock)
    (hsplit : pySplitS text "\n" = blockLines blocks)
    (hgood : goodBlocksFrom 1 blocks = true) :
    List.Forall₂ matchesBlock (parseQuiz text) blocks ∧
    (parseQuiz text).length = blocks.length ∧
    ∀ t : String, isQuestionStart t = true →
      ∃ n : Nat, 1 ≤ n ∧ n ≤ 10 ∧ pyStartsWithS (toString n ++ ".") t = true := by
  obtain ⟨res, e, hrel⟩ := foldl_quizStep_blocks blocks 1 none [] hgood
  have hpq : parseQuiz text = res := by
    rw [parseQuiz, parseQuizLines, hsplit]
    simpa [finalizeState] using e
  refine ⟨hpq ▸ hrel, hpq ▸ hrel.length_eq, ?_⟩
  intro t ht
  rw [isQuestionStart, Bool.and_eq_true] at ht
  obtain ⟨hany, -⟩ := ht
  rw [List.any_eq_true] at hany
  obtain ⟨m, hm, hpre⟩ := hany
  simp only [numberMarkers, List.mem_cons, List.not_mem_nil, or_false] at hm
  rcases hm with rfl | rfl | rfl | rfl | rfl | rfl | rfl | rfl | rfl | rfl
  · exact ⟨1, by norm_num, by norm_num, hpre⟩
  · exact ⟨2, by norm_num, by norm_num, hpre⟩
  · exact ⟨3, by norm_num, by norm_num, hpre⟩
  · exact ⟨4, by norm_num, by norm_num, hpre⟩
  · exact ⟨5, by norm_num, by norm_num, hpre⟩
  · exact ⟨6, by norm_num, by norm_num, hpre⟩
  · exact ⟨7, by norm_num, by norm_num, hpre⟩
  · exact ⟨8, by norm_num, by norm_num, hpre⟩
  · exact ⟨9, by norm_num, by norm_num, hpre⟩
  · exact ⟨10, by norm_num, by norm_num, hpre⟩

/-- A two-question text in the documented format, used to witness C7. -/
def exampleQuizText : String :=
  "1. Question: What is X?\nOptions:\nA) a\nB) b\nC) c\nD) d\nCorrect Answer: A) a\nExplanation: because\n2. Question: Y?\nA) p\nB) q\nC) r\nD) s\nE) t\nCorrect Answer: B) q\nExplanation: so"

/-- The block structure of `exampleQuizText`. -/
def exampleQuizBlocks : List QuizBlock :=
  [{ header := "1. Question: What is X?",
     body := ["Options:", "A) a", "B) b", "C) c", "D) d",
              "Correct Answer: A) a", "Explanation: because"] },
   { header := "2. Question: Y?",
     body := ["A) p", "B) q", "C) r", "D) s", "E) t",
              "Correct Answer: B) q", "Explanation: so"] }]

set_option maxRecDepth 10000 in
/-- Witness for C7 on the two-question example text. -/
theorem C7_witness :
    (parseQuiz exampleQuizText).length = exampleQuizBlocks.length :=
  (C7_wellformed_quiz_parse exampleQuizText exampleQuizBlocks
    (by decide) (by decide)).2.1
